import Mathlib

/-!
Verification of the site-crawling engine in `geo-platform/crawler/crawl_site.py`.

The Python source is shallowly embedded: pure helpers become Lean functions,
the per-session BFS loop becomes an explicit step function on a crawl state,
and network effects (HTTP fetches, the stdlib robots reader, HTML parsing)
become oracle parameters supplying the values the Python calls would return.
Machine integers in the source are Python bignums, so `Nat`/`Int` model them
exactly; the two float divisions in the industry scorer are handled by
quantifying over the rounding function (see `industry_raw`).
-/

namespace Geo

/-! ### String helpers (Python `in`, `startswith`, and friends) -/

/-- Prefix test on character lists: `startsWithL l p` is Python `l.startswith(p)`. -/
def startsWithL : List Char → List Char → Bool
  | _, [] => true
  | [], _ :: _ => false
  | c :: cs, p :: ps => c == p && startsWithL cs ps

/-- Substring test on character lists: `hasSubstrL hay needle` is Python `needle in hay`. -/
def hasSubstrL : List Char → List Char → Bool
  | [], needle => needle.isEmpty
  | c :: cs, needle => startsWithL (c :: cs) needle || hasSubstrL cs needle

/-- Python's `needle in hay` on strings. -/
def strContains (hay needle : String) : Bool :=
  hasSubstrL hay.data needle.data

/-- Python's `hay.startswith(needle)` on strings. -/
def strStartsWith (hay needle : String) : Bool :=
  startsWithL hay.data needle.data

/-- Python `s.lower()` (over the ASCII range the source compares). -/
def pyLower (s : String) : String :=
  String.mk (s.data.map Char.toLower)

/-- Python `str.strip()` whitespace characters. -/
def isSpaceChar (c : Char) : Bool :=
  c == ' ' || c == '\t' || c == '\n' || c == '\r' || c == '\x0B' || c == '\x0C'

/-- Python `s.strip()`. -/
def pyStrip (s : String) : String :=
  String.mk (((s.data.dropWhile fun c => isSpaceChar c).reverse.dropWhile
    fun c => isSpaceChar c).reverse)

/-- Order-preserving first-occurrence deduplication, the semantics of Python's
`list(dict.fromkeys(xs))` used by `find_links` and `nav_links`. -/
def dedupFirstAux (seen : List String) : List String → List String
  | [] => []
  | x :: xs =>
      if x ∈ seen then dedupFirstAux seen xs
      else x :: dedupFirstAux (x :: seen) xs

/-- Python `list(dict.fromkeys(xs))`. -/
def dedupFirst (xs : List String) : List String :=
  dedupFirstAux [] xs

/-- First-match association lookup, the semantics of a Python dict read
restricted to the keys this development stores. -/
def alookup (k : String) : List (String × Nat) → Option Nat
  | [] => none
  | p :: ps => if p.1 = k then some p.2 else alookup k ps

/-! ### Sitemap resolution (`parse_sitemaps`, crawl_site.py lines 165-184)

The network is an oracle `net : String → Option SitemapDoc`: `none` stands for
any iteration of the Python loop that contributes nothing and does not recurse
(fetch exception, non-200 status, XML parse failure, or a root tag that is
neither `sitemapindex` nor `urlset`), and `some` carries the stripped `<loc>`
texts of a parsed document.  The Python function recurses with no visited set
and no depth bound, so the embedding takes a fuel parameter that bounds the
number of recursion steps; an execution of the source that terminates is
reproduced by every sufficiently large fuel, and an input on which the source
recurses forever yields `none` at every fuel.  The result pairs the collected
leaf URLs (the Python `set`, as a list with duplicates kept) with the trace of
sitemap URLs fetched, in fetch order. -/

/-- One parsed sitemap document: a sitemap index listing child sitemap
locations, or a urlset listing leaf page URLs. -/
inductive SitemapDoc where
  | smIndex (locs : List String)
  | urlset (locs : List String)
deriving DecidableEq

/-- Fuel-bounded embedding of `parse_sitemaps`.  Returns `none` when the fuel
runs out before the recursion completes. -/
def parse_sitemaps_fuel (net : String → Option SitemapDoc) :
    Nat → List String → Option (List String × List String)
  | 0, [] => some ([], [])
  | 0, _ :: _ => none
  | _ + 1, [] => some ([], [])
  | fuel + 1, sm :: rest =>
    match net sm with
    | none =>
      match parse_sitemaps_fuel net fuel rest with
      | none => none
      | some (us, tr) => some (us, sm :: tr)
    | some (SitemapDoc.urlset ls) =>
      match parse_sitemaps_fuel net fuel rest with
      | none => none
      | some (us, tr) => some (ls ++ us, sm :: tr)
    | some (SitemapDoc.smIndex ls) =>
      match parse_sitemaps_fuel net fuel ls with
      | none => none
      | some (us₁, tr₁) =>
        match parse_sitemaps_fuel net fuel rest with
        | none => none
        | some (us₂, tr₂) => some (us₁ ++ us₂, sm :: (tr₁ ++ tr₂))

/-- Network in which sitemap `S` is an index document listing the child `C`
twice, and `C` is a urlset with one page. -/
def net_dup : String → Option SitemapDoc := fun s =>
  if s = "S" then some (SitemapDoc.smIndex ["C", "C"])
  else if s = "C" then some (SitemapDoc.urlset ["a"])
  else none

/-- Network in which sitemap `S` is an index document whose only location is
`S` itself: a one-node cycle. -/
def net_cycle : String → Option SitemapDoc := fun s =>
  if s = "S" then some (SitemapDoc.smIndex ["S"]) else none

/-- Network in which the index `S0` lists a child `A` whose fetch fails and a
child `B` that is a healthy urlset. -/
def net_fail : String → Option SitemapDoc := fun s =>
  if s = "S0" then some (SitemapDoc.smIndex ["A", "B"])
  else if s = "B" then some (SitemapDoc.urlset ["u"])
  else none

/-! ### Robots handling (`read_robots`, crawl_site.py lines 186-208)

`read_robots` first fetches `/robots.txt` with `requests`; on a 200 it parses
the body itself and collects `Sitemap:` lines.  Otherwise it falls back to
`urllib.robotparser.RobotFileParser.read()`, whose CPython semantics are
embedded here because the repository's behaviour on robots failure is decided
by them: `read` opens the URL, on an HTTP 401/403 error sets `disallow_all`,
on another 4xx sets `allow_all`, on other HTTP errors sets nothing, and lets a
non-HTTP network error (`URLError`) propagate as an exception; `can_fetch`
answers `False` when `disallow_all` is set, `True` when `allow_all` is set,
and `False` when the parser has never parsed a document (`last_checked == 0`),
before ever consulting parsed rules. -/

/-- State of a `urllib.robotparser.RobotFileParser`: `parsed` mirrors
`last_checked != 0`, and `lines` holds the parsed robots body. -/
structure RobotsParser where
  allow_all : Bool
  disallow_all : Bool
  parsed : Bool
  lines : List String
deriving DecidableEq

/-- Fresh parser, as built at the top of `read_robots`. -/
def robotsInit : RobotsParser := ⟨false, false, false, []⟩

/-- CPython `RobotFileParser.can_fetch`, with the per-path rule matching of a
successfully parsed file delegated to the parameter `ruleEval`. -/
def can_fetch (ruleEval : List String → String → Bool) (rp : RobotsParser)
    (url : String) : Bool :=
  if rp.disallow_all then false
  else if rp.allow_all then true
  else if !rp.parsed then false
  else ruleEval rp.lines url

/-- Outcome of the `urllib.request.urlopen` call inside
`RobotFileParser.read`: a body, an HTTP error code, or a non-HTTP network
error. -/
inductive UrlOpenResult where
  | ok (lines : List String)
  | httpError (code : Nat)
  | urlError
deriving DecidableEq

/-- CPython `RobotFileParser.read`.  `Except.error` is the propagated
`URLError` exception. -/
def robots_read (rp : RobotsParser) : UrlOpenResult → Except Unit RobotsParser
  | UrlOpenResult.ok lines => Except.ok { rp with parsed := true, lines := lines }
  | UrlOpenResult.httpError c =>
      if c = 401 ∨ c = 403 then Except.ok { rp with disallow_all := true }
      else if 400 ≤ c ∧ c < 500 then Except.ok { rp with allow_all := true }
      else Except.ok rp
  | UrlOpenResult.urlError => Except.error ()

/-- Python `line.split(":", 1)[1]`: everything after the first colon. -/
def afterColon : List Char → List Char
  | [] => []
  | c :: cs => if c = ':' then cs else afterColon cs

/-- One robots line contributes a sitemap URL when it starts with `sitemap:`
case-insensitively; the value is the text after the first colon, stripped. -/
def sitemapOfLine (line : String) : Option String :=
  if strStartsWith (pyLower line) "sitemap:" then
    some (pyStrip (String.mk (afterColon line.data)))
  else none

/-- Embedding of `read_robots`.  `fetchResult` is the `requests.get` of
`/robots.txt` (`none` for an exception, `some (status, splitlines)`
otherwise); `uo` is what `urlopen` inside the fallback `rp.read()` yields.
Returns the parser, the collected sitemap URLs and `robots_ok`. -/
def read_robots (fetchResult : Option (Nat × List String)) (uo : UrlOpenResult) :
    RobotsParser × List String × Bool :=
  match fetchResult with
  | some (200, lines) =>
      ({ robotsInit with parsed := true, lines := lines },
       lines.filterMap sitemapOfLine, true)
  | _ =>
      match robots_read robotsInit uo with
      | Except.ok rp => (rp, [], true)
      | Except.error _ => (robotsInit, [], false)

/-! ### Fetch classification and the per-page record
(crawl_site.py lines 151-163, 418-443, 575-605 and 695-798)

A `requests.Response` is truthy exactly when `resp.ok` holds, so the source's
`resp.status_code if resp else None` and `resp.text if (resp and resp.text)
else ""` are embedded through that truthiness. -/

/-- The slice of a `requests` response the loop body reads.  `ok` is the
library's `resp.ok`; `contentType` is `resp.headers.get("Content-Type", "")`;
`text` is the decoded body. -/
structure Resp where
  status : Nat
  ok : Bool
  contentType : String
  text : String
deriving DecidableEq

/-- Python `html = resp.text if (resp and resp.text) else ""`. -/
def page_html (resp : Option Resp) : String :=
  match resp with
  | some r => if r.ok && r.text != "" then r.text else ""
  | none => ""

/-- Python `size = len(html.encode("utf-8")) if html else 0`. -/
def page_size (resp : Option Resp) : Nat :=
  (page_html resp).utf8ByteSize

/-- Python `status = resp.status_code if resp else None` — truthiness of a
response is `resp.ok`, so a non-ok response records no status. -/
def page_status (resp : Option Resp) : Option Nat :=
  match resp with
  | some r => if r.ok then some r.status else none
  | none => none

/-- The guard of the extraction branch, line 721:
`resp and resp.ok and ("text/html" in resp.headers.get("Content-Type", "") or html)`. -/
def extract_branch (resp : Option Resp) : Bool :=
  match resp with
  | none => false
  | some r => r.ok && (strContains r.contentType "text/html" || page_html (some r) != "")

/-- Python `s.rstrip("/")`. -/
def rstripSlash (s : String) : String :=
  String.mk ((s.data.reverse.dropWhile fun c => c == '/').reverse)

/-- Python `s.strip("/")`. -/
def stripSlashes (s : String) : String :=
  String.mk (((s.data.dropWhile fun c => c == '/').reverse.dropWhile
    fun c => c == '/').reverse)

/-- Python `hay.endswith(needle)`. -/
def strEndsWith (hay needle : String) : Bool :=
  startsWithL hay.data.reverse needle.data.reverse

/-- Embedding of `is_priority_url`, crawl_site.py lines 575-586. -/
def is_priority_url (url domain : String) (priority_paths : List String) : Bool :=
  let base := pyLower (rstripSlash domain)
  let u := pyLower (rstripSlash url)
  priority_paths.any fun p =>
    let p_norm := pyLower (pyStrip p)
    if p_norm = "" ∨ p_norm = "/" then u == base
    else strEndsWith u (stripSlashes p_norm)

/-- The `PageRecord` dataclass, crawl_site.py lines 418-443.  The nested
`headings`/`dates`/`business_info`/`conversion_elements` maps are flattened
into named fields; `structured_data`, `faq_snippets`, `og` keep their shapes
with raw JSON values as opaque strings. -/
structure PageRecord where
  url : String
  status : Option Nat
  fetch_ms : Option Nat
  content_bytes : Nat
  title : Option String
  meta_description : Option String
  og : List (String × String)
  canonical : Option String
  headings_h1 : List String
  headings_h2 : List String
  nav : List String
  breadcrumbs : List String
  word_count : Nat
  structured_data : List String
  faq_detected : Bool
  faq_snippets : List (String × String)
  date_published : Option String
  date_updated : Option String
  biz_email : Option String
  biz_phone : Option String
  biz_address : Option String
  internal_links : List String
  external_links : List String
  categories : List String
  priority_page : Bool
  has_apply_cta : Bool
  forms_present : Bool
  cms : Option String
  extraction_notes : List String
deriving DecidableEq

/-- Outcomes of the extractor calls the HTML branch makes, one field per call
in source order (crawl_site.py lines 722-765).  Each is an `Except`: `ok`
carries the Python return value, `error` models an exception raised inside
that extractor.  The extractors themselves parse HTML, so their values are
oracle inputs here; what is embedded is the loop body's sequencing, which has
no exception handler around any of these calls. -/
structure HtmlExtract where
  parseDoc : Except String Unit
  titleOf : Except String (Option String)
  collectMeta : Except String (List (String × String) × Option String × Option String)
  viewport : Except String Bool
  headingsMap : Except String (List String × List String)
  navLinks : Except String (List String)
  breadcrumbLabels : Except String (List String)
  ldJsonBlocks : Except String (List String)
  detectFaq : Except String (Bool × List (String × String))
  pageText : Except String String
  extractDates : Except String (Option String × Option String)
  extractBusinessInfo : Except String (Option String × Option String × Option String)
  wordCount : Except String Nat
  findLinks : Except String (List String × List String × List (String × String))
  extractForms : Except String (List String)
  hasAnyCta : Except String Bool
  scriptHints : Except String (List String)

/-- True when an `Except` holds a value. -/
def exOk {α : Type} (x : Except String α) : Bool :=
  match x with
  | Except.ok _ => true
  | Except.error _ => false

/-- All seventeen extractor calls of the HTML branch succeeded. -/
def html_extract_all_ok (ex : HtmlExtract) : Bool :=
  exOk ex.parseDoc && exOk ex.titleOf && exOk ex.collectMeta && exOk ex.viewport &&
  exOk ex.headingsMap && exOk ex.navLinks && exOk ex.breadcrumbLabels &&
  exOk ex.ldJsonBlocks && exOk ex.detectFaq && exOk ex.pageText &&
  exOk ex.extractDates && exOk ex.extractBusinessInfo && exOk ex.wordCount &&
  exOk ex.findLinks && exOk ex.extractForms && exOk ex.hasAnyCta &&
  exOk ex.scriptHints

/-- The HTML branch of the per-page loop body, crawl_site.py lines 722-784:
run every extractor in source order — any exception propagates, exactly as in
the unguarded Python calls — and assemble the `PageRecord` of lines 775-784.
`extraction_notes` is the list initialised at line 718, which this branch
never appends to. -/
def page_step_html (url : String) (status : Option Nat) (ms : Option Nat)
    (size : Nat) (priority : Bool) (cms : Option String) (ex : HtmlExtract) :
    Except String PageRecord := do
  let _ ← ex.parseDoc
  let title ← ex.titleOf
  let meta ← ex.collectMeta
  let _mobileViewport ← ex.viewport
  let hs ← ex.headingsMap
  let nav ← ex.navLinks
  let crumbs ← ex.breadcrumbLabels
  let sdata ← ex.ldJsonBlocks
  let faq ← ex.detectFaq
  let _pageText ← ex.pageText
  let dates ← ex.extractDates
  let biz ← ex.extractBusinessInfo
  let wc ← ex.wordCount
  let links ← ex.findLinks
  let forms ← ex.extractForms
  let cta ← ex.hasAnyCta
  let _hints ← ex.scriptHints
  Except.ok
    { url := url, status := status, fetch_ms := ms, content_bytes := size,
      title := title, meta_description := meta.2.1, og := meta.1,
      canonical := meta.2.2, headings_h1 := hs.1, headings_h2 := hs.2,
      nav := nav, breadcrumbs := crumbs, word_count := wc,
      structured_data := sdata, faq_detected := faq.1, faq_snippets := faq.2,
      date_published := dates.1, date_updated := dates.2,
      biz_email := biz.1, biz_phone := biz.2.1, biz_address := biz.2.2,
      internal_links := links.1, external_links := links.2.1, categories := [],
      priority_page := priority, has_apply_cta := cta,
      forms_present := decide (0 < forms.length), cms := cms,
      extraction_notes := [] }

/-- The note written in the non-HTML/error branch, line 797:
`f"non_html_or_error: {err or status}"`. -/
def err_note (err : Option String) (status : Option Nat) : String :=
  "non_html_or_error: " ++
    (match err with
     | some e => e
     | none =>
       match status with
       | some n => toString n
       | none => "None")

/-- The record of the non-HTML/error branch, crawl_site.py lines 787-798. -/
def blank_record (url : String) (status : Option Nat) (ms : Option Nat)
    (size : Nat) (priority : Bool) (cms : Option String) (err : Option String) :
    PageRecord :=
  { url := url, status := status, fetch_ms := ms, content_bytes := size,
    title := none, meta_description := none, og := [], canonical := none,
    headings_h1 := [], headings_h2 := [], nav := [], breadcrumbs := [],
    word_count := 0, structured_data := [], faq_detected := false,
    faq_snippets := [], date_published := none, date_updated := none,
    biz_email := none, biz_phone := none, biz_address := none,
    internal_links := [], external_links := [], categories := [],
    priority_page := priority, has_apply_cta := false, forms_present := false,
    cms := cms, extraction_notes := [err_note err status] }

/-- The part of the loop body from the fetch classification to the emitted
record, crawl_site.py lines 695-798. -/
def page_step (url domain : String) (priority_paths : List String)
    (cms : Option String) (resp : Option Resp) (err : Option String)
    (ms : Option Nat) (ex : HtmlExtract) : Except String PageRecord :=
  let status := page_status resp
  let size := page_size resp
  let priority := is_priority_url url domain priority_paths
  if extract_branch resp then page_step_html url status ms size priority cms ex
  else Except.ok (blank_record url status ms size priority cms err)

/-! ### Link partitioning and the edges artifact
(`find_links` lines 349-363 and the edge writes at lines 748-752)

`norm_url` is `urljoin` plus fragment stripping from the standard library and
`netloc` is `urlparse(...).netloc`; both are taken as function parameters. -/

/-- Python `same_host`, crawl_site.py lines 140-141. -/
def same_host (netloc : String → String) (a b : String) : Bool :=
  pyLower (netloc a) == pyLower (netloc b)

/-- The accumulation loop of `find_links` before deduplication: internal
list, external list, and the `rel_edges` list in discovery order. -/
def find_links_raw (normU : String → Option String) (netloc : String → String)
    (base : String) (baseHost : String) :
    List String → List String × List String × List (String × String)
  | [] => ([], [], [])
  | href :: hs =>
    let r := find_links_raw normU netloc base baseHost hs
    match normU href with
    | none => r
    | some u =>
      let host := pyLower (netloc u)
      if host == baseHost || host == "" then (u :: r.1, r.2.1, (base, u) :: r.2.2)
      else (r.1, u :: r.2.1, (base, u) :: r.2.2)

/-- Embedding of `find_links`: the internal and external lists are passed
through `list(dict.fromkeys(...))`, `rel_edges` is returned untouched. -/
def find_links (normU : String → Option String) (netloc : String → String)
    (base : String) (hrefs : List String) :
    List String × List String × List (String × String) :=
  let r := find_links_raw normU netloc base (pyLower (netloc base)) hrefs
  (dedupFirst r.1, dedupFirst r.2.1, r.2.2)

/-- The edge rows the loop writes for one page, crawl_site.py lines 749-752:
one `(url, to, rel)` row per element of the deduplicated internal list then
per element of the deduplicated external list. -/
def edges_rows_for_page (url : String) (internal external : List String) :
    List (String × String × String) :=
  internal.map (fun t => (url, t, "internal")) ++
    external.map (fun t => (url, t, "external"))

/-! ### The crawl loop (crawl_site.py lines 643-816)

The loop state carries the queue (FIFO, head next), the visited set `seen`,
the first-enqueue depth map, the `(url, depth)` projection of every
`PageRecord` written to `pages.jsonl`, and the `count` counter reported as
`pages_crawled`.  The oracle supplies, per URL, the robots verdict (`none`
models `rp.can_fetch` raising, which the `try/except: pass` swallows), the
fetch response, and the deduplicated internal-link list `find_links` would
return for the page's HTML. -/

/-- Per-URL environment of one crawl session. -/
structure CrawlOracle where
  robots : String → Option Bool
  resp : String → Option Resp
  ilinks : String → List String

/-- Mutable state of the `while` loop. -/
structure CrawlState where
  q : List String
  seen : List String
  dm : List (String × Nat)
  recs : List (String × Nat)
  count : Nat
deriving DecidableEq

/-- The re-enqueue loop for discovered internal links, crawl_site.py lines
768-772: a link is added only if unseen and on the target host; its depth is
set to `depth + 1` only at first discovery.  `seen` is read before the
current URL is added to it, as in the source. -/
def enqueue_links (netloc : String → String) (domain : String)
    (seen : List String) (depth : Nat) :
    List String → List String → List (String × Nat) →
    List String × List (String × Nat)
  | [], qacc, dm => (qacc, dm)
  | nxt :: ls, qacc, dm =>
    if nxt ∉ seen ∧ same_host netloc nxt domain = true then
      let dm' := if alookup nxt dm = none then (nxt, depth + 1) :: dm else dm
      enqueue_links netloc domain seen depth ls (qacc ++ [nxt]) dm'
    else
      enqueue_links netloc domain seen depth ls qacc dm

/-- One iteration of the `while` loop body, lines 680-815. -/
def crawl_step (netloc : String → String) (o : CrawlOracle) (domain : String)
    (maxDepth : Nat) (s : CrawlState) : CrawlState :=
  match s.q with
  | [] => s
  | url :: rest =>
    if url ∈ s.seen then { s with q := rest }
    else
      let depth := (alookup url s.dm).getD 0
      if maxDepth < depth then { s with q := rest }
      else if o.robots url = some false then { s with q := rest }
      else
        let links := if extract_branch (o.resp url) then o.ilinks url else []
        let qd := enqueue_links netloc domain s.seen depth links rest s.dm
        { q := qd.1, seen := url :: s.seen, dm := qd.2,
          recs := s.recs ++ [(url, depth)], count := s.count + 1 }

/-- The loop guard, line 680: run the body while the queue is non-empty and
`count < max_pages`; otherwise the state is final. -/
def crawl_loop_step (netloc : String → String) (o : CrawlOracle) (domain : String)
    (maxDepth maxPages : Nat) (s : CrawlState) : CrawlState :=
  if s.q ≠ [] ∧ s.count < maxPages then crawl_step netloc o domain maxDepth s
  else s

/-- Initial state: seeds sharing the target host are enqueued at depth 0
(lines 648-652). -/
def init_state (netloc : String → String) (domain : String)
    (seeds : List String) : CrawlState :=
  let fs := seeds.filter fun u => same_host netloc u domain
  { q := fs, seen := [], dm := fs.map (fun u => (u, 0)), recs := [], count := 0 }

/-- The state after `k` iterations of the guarded loop. -/
def crawl_run (netloc : String → String) (o : CrawlOracle) (domain : String)
    (maxDepth maxPages : Nat) (seeds : List String) : Nat → CrawlState
  | 0 => init_state netloc domain seeds
  | k + 1 => crawl_loop_step netloc o domain maxDepth maxPages
      (crawl_run netloc o domain maxDepth maxPages seeds k)

/-! ### API-interaction readiness scorer (`score_api_testing`, lines 449-494) -/

/-- An entry of `api_inventory["discovered"]` as the scorer reads it.
`content_type = none` covers both an absent key (Python default `""`) and a
`None` value (Python `str(None)`), neither of which matches the JSON prefix
test. -/
structure ApiEntry where
  endpoint : Option String
  content_type : Option String
  typ : Option String
deriving DecidableEq

/-- Python truthiness filter `if d.get("endpoint")`. -/
def truthy_endpoint : Option String → Option String
  | some s => if s = "" then none else some s
  | none => none

/-- Python `str(d.get("content_type", "")).lower().startswith("application/json")`. -/
def entry_is_json (d : ApiEntry) : Bool :=
  strStartsWith (pyLower (d.content_type.getD "")) "application/json"

/-- The `signals` map of the API score. -/
structure ApiSignals where
  distinct_endpoints : Nat
  json_endpoints : Nat
  xhr_or_script_hints : Nat
  forms_detected : Nat
deriving DecidableEq

/-- The dict returned by `score_api_testing`. -/
structure ApiResult where
  ai_interaction_ready : Bool
  score : Int
  signals : ApiSignals
  notes : List String
deriving DecidableEq

/-- Embedding of `score_api_testing`. -/
def score_api_testing (discovered : List ApiEntry) (forms_count : Nat) :
    ApiResult :=
  let endpoints := (discovered.filterMap fun d => truthy_endpoint d.endpoint).dedup
  let json_like := discovered.filter entry_is_json
  let xhr_like := discovered.filter fun d =>
    d.typ == some "xhr" || d.typ == some "script_hint"
  let score0 : Int := min (endpoints.length : Int) 20 * 3
    + min (json_like.length : Int) 10 * 3 + min (forms_count : Int) 5 * 2
  let score := max 0 (min score0 100)
  let ready := decide (40 ≤ score)
  { ai_interaction_ready := ready, score := score,
    signals := { distinct_endpoints := endpoints.length,
                 json_endpoints := json_like.length,
                 xhr_or_script_hints := xhr_like.length,
                 forms_detected := forms_count },
    notes :=
      (if endpoints.length = 0 then ["No endpoints discovered from scripts/XHR."] else []) ++
      (if json_like.length = 0 then ["No JSON content types observed during sampling."] else []) ++
      (if forms_count = 0 then ["No forms detected for structured submissions."] else []) ++
      [if ready then "Basic API signals present for programmatic interaction."
       else "Insufficient dynamic endpoints for AI interaction."] }

/-- Modelled from the spec wording of the API-interaction readiness score: a
weighted sum over three capped signals, clamped to the range 0 to 100. -/
def api_score_spec (distinctEndpoints jsonObserved formsDetected : Nat) : Int :=
  max 0 (min (3 * min (distinctEndpoints : Int) 20
    + 3 * min (jsonObserved : Int) 10
    + 2 * min (formsDetected : Int) 5) 100)

/-! ### SEO/AI-discovery scorer (`score_industry_comparison`, lines 496-569)

The eight accumulated score terms are built from integer counts, two
replaced denominators, and Python's float `round`.  The float pipeline
`round(a / n * w)` is a function of the exact rational `a / n * w` (IEEE
division and multiplication are correctly rounded), so it is embedded as a
parameter `rnd : ℚ → ℤ`; theorems that need a concrete value only use
`rnd 0 = 0`, which holds of the Python pipeline.  The per-signal percentage
display fields and the notes list of the source are presentation only and no
claim reads them, so the embedded result keeps the score, the ready flag and
the two presence booleans. -/

/-- A page sample entry, the four keys appended at lines 807-812. -/
structure PageSig where
  title : Option String
  meta_description : Option String
  og : List (String × String)
  structured_data : List String
deriving DecidableEq

/-- A performance row as appended at line 804: `fetch_ms = none` models the
`""` cell written when `ms or ""` is falsy. -/
structure PerfRow where
  url : String
  fetch_ms : Option Nat
  content_bytes : Option Nat
  mobile_viewport : Bool
deriving DecidableEq

/-- Python truthiness of an optional string field. -/
def truthyStr (s : Option String) : Bool := s.getD "" != ""

/-- Python `n = len(pages_sample) or 1`. -/
def pages_denom (pages : List PageSig) : Nat :=
  if pages.length = 0 then 1 else pages.length

/-- Python `max(len(perf_rows), 1)`. -/
def perf_denom (perf : List PerfRow) : Nat := max perf.length 1

/-- Pages with a truthy title. -/
def title_ok_count (pages : List PageSig) : Nat :=
  (pages.filter fun p => truthyStr p.title).length

/-- Pages with a truthy meta description. -/
def desc_ok_count (pages : List PageSig) : Nat :=
  (pages.filter fun p => truthyStr p.meta_description).length

/-- Pages with a non-empty Open Graph map. -/
def og_ok_count (pages : List PageSig) : Nat :=
  (pages.filter fun p => !p.og.isEmpty).length

/-- Pages with at least one structured-data block. -/
def ld_ok_count (pages : List PageSig) : Nat :=
  (pages.filter fun p => !p.structured_data.isEmpty).length

/-- Rows whose mobile-viewport flag is true. -/
def mv_ok_count (perf : List PerfRow) : Nat :=
  (perf.filter fun r => r.mobile_viewport).length

/-- Rows with a recorded latency of at most 2000 ms. -/
def fast_ok_count (perf : List PerfRow) : Nat :=
  (perf.filter fun r =>
    match r.fetch_ms with
    | some v => decide (v ≤ 2000)
    | none => false).length

/-- The eight successive `score +=` terms of lines 526-534, before the clamp
at line 535. -/
def industry_raw (rnd : ℚ → ℤ) (pages : List PageSig) (perf : List PerfRow)
    (sitemap_found robots_found : Bool) : ℤ :=
  let n : ℚ := pages_denom pages
  let m : ℚ := perf_denom perf
  rnd ((title_ok_count pages : ℚ) / n * 15)
    + rnd ((desc_ok_count pages : ℚ) / n * 15)
    + rnd ((og_ok_count pages : ℚ) / n * 10)
    + rnd ((ld_ok_count pages : ℚ) / n * 25)
    + rnd ((mv_ok_count perf : ℚ) / m * 15)
    + (if sitemap_found then 10 else 0)
    + (if robots_found then 5 else 0)
    + rnd ((fast_ok_count perf : ℚ) / m * 10)

/-- The claim-relevant projection of the dict returned by
`score_industry_comparison`. -/
structure IndustryResult where
  seo_ai_discovery_ready : Bool
  score : ℤ
  sitemap_present : Bool
  robots_present : Bool
deriving DecidableEq

/-- Embedding of `score_industry_comparison`. -/
def score_industry_comparison (rnd : ℚ → ℤ) (pages : List PageSig)
    (perf : List PerfRow) (sitemap_found robots_found : Bool) : IndustryResult :=
  let raw := industry_raw rnd pages perf sitemap_found robots_found
  let score := max 0 (min raw 100)
  { seo_ai_discovery_ready := decide (60 ≤ score), score := score,
    sitemap_present := sitemap_found, robots_present := robots_found }

/-! ### Sitemap-set construction in `crawl_site` (lines 622-629, 855-861) -/

/-- The merged sitemap-URL set of lines 622-629: robots-declared sitemaps,
then intake-provided ones, then a synthesized `/sitemap.xml` when the set is
still empty.  `synth` stands for `urljoin(domain, "/sitemap.xml")`. -/
def sitemap_urls_of (robots_sitemaps provided : List String) (synth : String) :
    Finset String :=
  let s := robots_sitemaps.toFinset ∪ provided.toFinset
  if s = ∅ then {synth} else s

/-- The `sitemap_found = bool(sitemap_urls)` argument of line 859. -/
def crawl_sitemap_found (robots_sitemaps provided : List String)
    (synth : String) : Bool :=
  decide (sitemap_urls_of robots_sitemaps provided synth ≠ ∅)

/-! ### Concrete sample inputs used by the theorems below -/

/-- An extractor run in which every call succeeds. -/
def exAllOkSample : HtmlExtract :=
  { parseDoc := Except.ok (), titleOf := Except.ok (some "T"),
    collectMeta := Except.ok ([], none, none), viewport := Except.ok false,
    headingsMap := Except.ok ([], []), navLinks := Except.ok [],
    breadcrumbLabels := Except.ok [], ldJsonBlocks := Except.ok [],
    detectFaq := Except.ok (false, []), pageText := Except.ok "",
    extractDates := Except.ok (none, none),
    extractBusinessInfo := Except.ok (none, none, none),
    wordCount := Except.ok 0, findLinks := Except.ok ([], [], []),
    extractForms := Except.ok [], hasAnyCta := Except.ok false,
    scriptHints := Except.ok [] }

/-- The same run with an exception raised inside `nav_links`. -/
def exNavBoom : HtmlExtract :=
  { exAllOkSample with navLinks := Except.error "boom" }

/-- The record `page_step_html "u" none none 0 false none exAllOkSample`
produces. -/
def recSample : PageRecord :=
  { url := "u", status := none, fetch_ms := none, content_bytes := 0,
    title := some "T", meta_description := none, og := [], canonical := none,
    headings_h1 := [], headings_h2 := [], nav := [], breadcrumbs := [],
    word_count := 0, structured_data := [], faq_detected := false,
    faq_snippets := [], date_published := none, date_updated := none,
    biz_email := none, biz_phone := none, biz_address := none,
    internal_links := [], external_links := [], categories := [],
    priority_page := false, has_apply_cta := false, forms_present := false,
    cms := none, extraction_notes := [] }

/-- A 2xx JSON response with a non-empty body. -/
def respJsonBody : Resp := ⟨200, true, "application/json", "x"⟩

/-- A 2xx JSON response with an empty body. -/
def respJsonEmpty : Resp := ⟨200, true, "application/json", ""⟩

/-- A degenerate netloc extractor mapping every URL to the empty host. -/
def netloc0 : String → String := fun _ => ""

/-- An oracle in which every fetch fails and robots raises. -/
def oracle0 : CrawlOracle :=
  { robots := fun _ => none, resp := fun _ => none, ilinks := fun _ => [] }

/-- The loop invariant behind claims about the visited set, the emitted
records and the frontier: the visited list has no duplicates, its size equals
the number of records written and the `count` counter, every queued URL is on
the target host, and every emitted record respects the depth bound and the
host restriction. -/
def CrawlInv (netloc : String → String) (domain : String) (maxDepth : Nat)
    (s : CrawlState) : Prop :=
  s.seen.Nodup ∧ s.seen.length = s.recs.length ∧ s.count = s.recs.length ∧
  (∀ u ∈ s.q, same_host netloc u domain = true) ∧
  (∀ p ∈ s.recs, p.2 ≤ maxDepth ∧ same_host netloc p.1 domain = true)

/-! ## Theorems -/

/-- On the one-node cycle network the recursion of `parse_sitemaps` never
completes: every fuel bound is exhausted. -/
theorem net_cycle_no_fuel :
    ∀ fuel, parse_sitemaps_fuel net_cycle fuel ["S"] = none := by
  intro fuel
  induction fuel with
  | zero => rfl
  | succ n ih => simp [parse_sitemaps_fuel, net_cycle, ih]

/-- C1 counterexample: `parse_sitemaps` keeps no visited set, so on the
network where index `S` lists child `C` twice, the resolution pass fetches
`C` twice — refuting "never fetches the same sitemap URL twice within one
resolution pass". -/
theorem C1_sitemap_refetch_counterexample :
    ¬ (∀ (net : String → Option SitemapDoc) (fuel : Nat) (sms : List String)
        (r : List String × List String),
        parse_sitemaps_fuel net fuel sms = some r → ∀ u : String, r.2.count u ≤ 1) := by
  intro h
  have h2 := h net_dup 3 ["S"] (["a", "a"], ["S", "C", "C"]) (by decide) "C"
  have h3 : (["S", "C", "C"] : List String).count "C" = 2 := by decide
  rw [h3] at h2
  omega

/-- C1 (amended): `parse_sitemaps` fetches each sitemap URL once per
occurrence in the recursion tree (a child referenced twice is fetched
twice), does not terminate when a sitemap-index cycles back to itself (no
fuel bound completes the recursion), and a failed fetch of one sitemap only
omits that branch while the sibling's URLs are still collected. -/
theorem C1_sitemap_resolution_amended :
    (∀ fuel, parse_sitemaps_fuel net_cycle fuel ["S"] = none) ∧
    parse_sitemaps_fuel net_dup 3 ["S"] = some (["a", "a"], ["S", "C", "C"]) ∧
    (["S", "C", "C"] : List String).count "C" = 2 ∧
    parse_sitemaps_fuel net_fail 3 ["S0"] = some (["u"], ["S0", "A", "B"]) :=
  ⟨net_cycle_no_fuel, by decide, by decide, by decide⟩

/-- C2 counterexample: when the `requests` fetch of robots.txt raises and the
fallback `rp.read()` also hits a network error, `read_robots` does report
`robots_ok = false`, but the resulting parser has never parsed a file, so
`can_fetch` denies every URL — the session is deny-all, not allow-all. -/
theorem C2_robots_failure_counterexample :
    ¬ (∀ (uo : UrlOpenResult) (ruleEval : List String → String → Bool)
        (url : String),
        (read_robots none uo).2.2 = false ∧
        can_fetch ruleEval (read_robots none uo).1 url = true) := by
  intro h
  have h2 := h UrlOpenResult.urlError (fun _ _ => true) "https://example.com/page"
  simp [read_robots, robots_read, can_fetch, robotsInit] at h2

/-- C2 (amended): when the primary robots fetch is not a 200, the code
retries through the stdlib reader.  A network error there leaves
`robots_ok = false` and an unparsed parser that denies every URL; an HTTP
error yields `robots_ok = true` with deny-all on 401/403, allow-all on other
4xx codes, and deny-all (unparsed) on 5xx; a successful retry or a primary
200 yields `robots_ok = true`. -/
theorem C2_robots_failure_amended (ruleEval : List String → String → Bool)
    (url : String) (rlines : List String) (c : Nat) :
    (read_robots none UrlOpenResult.urlError).2.2 = false ∧
    can_fetch ruleEval (read_robots none UrlOpenResult.urlError).1 url = false ∧
    (read_robots none (UrlOpenResult.httpError c)).2.2 = true ∧
    (c = 401 ∨ c = 403 →
      can_fetch ruleEval (read_robots none (UrlOpenResult.httpError c)).1 url = false) ∧
    (¬(c = 401 ∨ c = 403) → 400 ≤ c → c < 500 →
      can_fetch ruleEval (read_robots none (UrlOpenResult.httpError c)).1 url = true) ∧
    (500 ≤ c →
      can_fetch ruleEval (read_robots none (UrlOpenResult.httpError c)).1 url = false) ∧
    (read_robots none (UrlOpenResult.ok rlines)).2.2 = true ∧
    (read_robots (some (200, rlines)) UrlOpenResult.urlError).2.2 = true := by
  refine ⟨rfl, rfl, ?_, ?_, ?_, ?_, rfl, rfl⟩
  · by_cases h1 : c = 401 ∨ c = 403
    · simp only [read_robots, robots_read, if_pos h1]
    · by_cases h2 : 400 ≤ c ∧ c < 500
      · simp only [read_robots, robots_read, if_neg h1, if_pos h2]
      · simp only [read_robots, robots_read, if_neg h1, if_neg h2]
  · intro h1
    simp only [read_robots, robots_read, if_pos h1]
    rfl
  · intro h1 h2 h3
    simp only [read_robots, robots_read, if_neg h1,
      if_pos (show 400 ≤ c ∧ c < 500 from ⟨h2, h3⟩)]
    rfl
  · intro h1
    have h2 : ¬(c = 401 ∨ c = 403) := by omega
    have h3 : ¬(400 ≤ c ∧ c < 500) := by omega
    simp only [read_robots, robots_read, if_neg h2, if_neg h3]
    rfl

/-- Witness for the amended C2 theorem at `c = 404`: the 4xx retry path marks
the session allow-all. -/
theorem C2_robots_failure_amended_witness :
    can_fetch (fun _ _ => false)
      (read_robots none (UrlOpenResult.httpError 404)).1 "https://e/x" = true :=
  (C2_robots_failure_amended (fun _ _ => false) "https://e/x" [] 404).2.2.2.2.1
    (by decide) (by decide) (by decide)

/-- C3 counterexample: with an exception raised inside the `nav_links`
extractor, the per-page loop body yields no `PageRecord` at all — the error
propagates out of the page (and out of the session), instead of degrading to
a note on the record. -/
theorem C3_extractor_failure_counterexample :
    ¬ (∀ (url domain : String) (pp : List String) (cms : Option String)
        (resp : Option Resp) (err : Option String) (ms : Option Nat)
        (ex : HtmlExtract),
        ∃ rec : PageRecord,
          page_step url domain pp cms resp err ms ex = Except.ok rec) := by
  intro h
  obtain ⟨rec, hrec⟩ := h "https://h/p" "https://h" [] none
    (some ⟨200, true, "text/html", "x"⟩) none (some 10) exNavBoom
  have hE : page_step "https://h/p" "https://h" [] none
      (some ⟨200, true, "text/html", "x"⟩) none (some 10) exNavBoom =
      Except.error "boom" := rfl
  rw [hE] at hrec
  exact Except.noConfusion hrec

/-- C3 (amended): the HTML branch of the page loop has no per-extractor
guard: the body succeeds exactly when all seventeen extractor calls succeed,
any single failure propagates as the branch's error (no record is emitted),
and a successful record always has an empty `extraction_notes` list — no
note is ever appended in this branch. -/
theorem C3_extractor_failure_amended (url : String) (status : Option Nat)
    (ms : Option Nat) (size : Nat) (priority : Bool) (cms : Option String)
    (ex : HtmlExtract) :
    exOk (page_step_html url status ms size priority cms ex) =
      html_extract_all_ok ex ∧
    (∀ rec : PageRecord,
      page_step_html url status ms size priority cms ex = Except.ok rec →
      rec.extraction_notes = []) := by
  obtain ⟨f1, f2, f3, f4, f5, f6, f7, f8, f9, f10, f11, f12, f13, f14, f15, f16, f17⟩ := ex
  rcases f1 with e | v1
  · exact ⟨rfl, fun rec h => Except.noConfusion h⟩
  rcases f2 with e | v2
  · exact ⟨rfl, fun rec h => Except.noConfusion h⟩
  rcases f3 with e | v3
  · exact ⟨rfl, fun rec h => Except.noConfusion h⟩
  rcases f4 with e | v4
  · exact ⟨rfl, fun rec h => Except.noConfusion h⟩
  rcases f5 with e | v5
  · exact ⟨rfl, fun rec h => Except.noConfusion h⟩
  rcases f6 with e | v6
  · exact ⟨rfl, fun rec h => Except.noConfusion h⟩
  rcases f7 with e | v7
  · exact ⟨rfl, fun rec h => Except.noConfusion h⟩
  rcases f8 with e | v8
  · exact ⟨rfl, fun rec h => Except.noConfusion h⟩
  rcases f9 with e | v9
  · exact ⟨rfl, fun rec h => Except.noConfusion h⟩
  rcases f10 with e | v10
  · exact ⟨rfl, fun rec h => Except.noConfusion h⟩
  rcases f11 with e | v11
  · exact ⟨rfl, fun rec h => Except.noConfusion h⟩
  rcases f12 with e | v12
  · exact ⟨rfl, fun rec h => Except.noConfusion h⟩
  rcases f13 with e | v13
  · exact ⟨rfl, fun rec h => Except.noConfusion h⟩
  rcases f14 with e | v14
  · exact ⟨rfl, fun rec h => Except.noConfusion h⟩
  rcases f15 with e | v15
  · exact ⟨rfl, fun rec h => Except.noConfusion h⟩
  rcases f16 with e | v16
  · exact ⟨rfl, fun rec h => Except.noConfusion h⟩
  rcases f17 with e | v17
  · exact ⟨rfl, fun rec h => Except.noConfusion h⟩
  refine ⟨rfl, fun rec h => ?_⟩
  injection h with h2
  rw [← h2]

/-- Witness for the amended C3 theorem on the all-successful extractor run. -/
theorem C3_extractor_failure_amended_witness :
    exOk (page_step_html "u" none none 0 false none exAllOkSample) =
      html_extract_all_ok exAllOkSample ∧
    recSample.extraction_notes = [] :=
  ⟨(C3_extractor_failure_amended "u" none none 0 false none exAllOkSample).1,
   (C3_extractor_failure_amended "u" none none 0 false none exAllOkSample).2
     recSample rfl⟩

/-- C4 counterexample: a 2xx response whose content type is JSON but whose
body is non-empty is sent through the HTML extraction branch — extraction is
not skipped for it. -/
theorem C4_nonhtml_skip_counterexample :
    ¬ (∀ r : Resp, r.ok = true → strContains r.contentType "text/html" = false →
        extract_branch (some r) = false) := by
  intro h
  have h2 := h respJsonBody rfl (by decide)
  exact absurd h2 (by decide)

/-- C4 (amended): the loop body classifies each fetch into exactly the two
source branches: extraction runs iff the response is ok and its content type
contains `text/html` or its body text is non-empty; only when that guard
fails is the blank status/size-only record emitted, with all content fields
null or empty and the single `non_html_or_error` note. -/
theorem C4_fetch_classification_amended (r : Resp) (url domain : String)
    (pp : List String) (cms : Option String) (err : Option String)
    (ms : Option Nat) (ex : HtmlExtract) :
    (extract_branch (some r) =
      (r.ok && (strContains r.contentType "text/html" || r.text != ""))) ∧
    extract_branch none = false ∧
    (extract_branch (some r) = false →
      page_step url domain pp cms (some r) err ms ex =
        Except.ok (blank_record url (page_status (some r)) ms
          (page_size (some r)) (is_priority_url url domain pp) cms err)) ∧
    (blank_record url (page_status (some r)) ms (page_size (some r))
        (is_priority_url url domain pp) cms err).title = none ∧
    (blank_record url (page_status (some r)) ms (page_size (some r))
        (is_priority_url url domain pp) cms err).meta_description = none ∧
    (blank_record url (page_status (some r)) ms (page_size (some r))
        (is_priority_url url domain pp) cms err).og = [] ∧
    (blank_record url (page_status (some r)) ms (page_size (some r))
        (is_priority_url url domain pp) cms err).structured_data = [] ∧
    (blank_record url (page_status (some r)) ms (page_size (some r))
        (is_priority_url url domain pp) cms err).internal_links = [] ∧
    (blank_record url (page_status (some r)) ms (page_size (some r))
        (is_priority_url url domain pp) cms err).word_count = 0 ∧
    (blank_record url (page_status (some r)) ms (page_size (some r))
        (is_priority_url url domain pp) cms err).extraction_notes =
      [err_note err (page_status (some r))] := by
  refine ⟨?_, rfl, ?_, rfl, rfl, rfl, rfl, rfl, rfl, rfl⟩
  · obtain ⟨st, ok, ct, tx⟩ := r
    cases ok
    · simp [extract_branch, page_html]
    · by_cases htx : tx = "" <;> simp [extract_branch, page_html, htx]
  · intro hb
    simp only [page_step, hb]
    simp

/-- Witness for the amended C4 theorem: a 2xx JSON response with an empty
body takes the blank-record branch. -/
theorem C4_fetch_classification_amended_witness :
    page_step "https://h/p" "https://h" [] none (some respJsonEmpty) none
      (some 5) exAllOkSample =
      Except.ok (blank_record "https://h/p" (page_status (some respJsonEmpty))
        (some 5) (page_size (some respJsonEmpty))
        (is_priority_url "https://h/p" "https://h" []) none none) :=
  (C4_fetch_classification_amended respJsonEmpty "https://h/p" "https://h" []
    none none (some 5) exAllOkSample).2.2.1 (by decide)

/-- `dict.fromkeys` deduplication produces a duplicate-free list avoiding the
accumulator. -/
theorem dedupFirstAux_spec (xs : List String) :
    ∀ seen : List String, (dedupFirstAux seen xs).Nodup ∧
      ∀ x ∈ dedupFirstAux seen xs, x ∉ seen := by
  induction xs with
  | nil => intro seen; exact ⟨List.nodup_nil, by simp [dedupFirstAux]⟩
  | cons x xs ih =>
    intro seen
    by_cases hx : x ∈ seen
    · simp only [dedupFirstAux, if_pos hx]
      exact ih seen
    · simp only [dedupFirstAux, if_neg hx]
      obtain ⟨ihnd, ihmem⟩ := ih (x :: seen)
      refine ⟨List.nodup_cons.2 ⟨fun hmem => (ihmem x hmem) (List.mem_cons_self x _), ihnd⟩, ?_⟩
      intro y hy
      rcases List.mem_cons.1 hy with rfl | hy2
      · exact hx
      · exact fun hys => (ihmem y hy2) (List.mem_cons_of_mem x hys)

/-- `dict.fromkeys` deduplication yields a duplicate-free list. -/
theorem dedupFirst_nodup (xs : List String) : (dedupFirst xs).Nodup :=
  (dedupFirstAux_spec xs []).1

/-- The `rel_edges` list of `find_links` has one entry per anchor whose
normalisation succeeds — multiplicity preserved. -/
theorem find_links_raw_rel_length (normU : String → Option String)
    (netloc : String → String) (base baseHost : String) (hrefs : List String) :
    (find_links_raw normU netloc base baseHost hrefs).2.2.length =
      (hrefs.filterMap normU).length := by
  induction hrefs with
  | nil => rfl
  | cons h hs ih =>
    simp only [find_links_raw, List.filterMap_cons]
    cases hn : normU h
    · simpa using ih
    · simp only [hn]
      split <;> simp [ih]

/-- C5 counterexample: a page whose HTML contains the same same-host anchor
twice produces two `rel_edges` occurrences but only one written edge row —
the writer consumes the deduplicated lists, so multiplicity is lost. -/
theorem C5_edges_multiplicity_counterexample :
    ¬ (∀ (normU : String → Option String) (netloc : String → String)
        (base : String) (hrefs : List String),
        (edges_rows_for_page base (find_links normU netloc base hrefs).1
            (find_links normU netloc base hrefs).2.1).length =
          (find_links normU netloc base hrefs).2.2.length) := by
  intro h
  have h2 := h (fun s => some s) (fun _ => "h") "b" ["u", "u"]
  exact absurd h2 (by decide)

/-- C5 (amended): the edge rows written for a page are one row per distinct
internal target then one per distinct external target — duplicate-free — while
the unwritten `rel_edges` list is the one that preserves one entry per link
occurrence. -/
theorem C5_edges_rows_amended (normU : String → Option String)
    (netloc : String → String) (base : String) (hrefs : List String) :
    (edges_rows_for_page base (find_links normU netloc base hrefs).1
        (find_links normU netloc base hrefs).2.1).Nodup ∧
    (find_links normU netloc base hrefs).2.2.length =
      (hrefs.filterMap normU).length := by
  constructor
  · unfold edges_rows_for_page
    refine List.Nodup.append ?_ ?_ ?_
    · exact (dedupFirst_nodup _).map fun a b hab => by simpa using hab
    · exact (dedupFirst_nodup _).map fun a b hab => by simpa using hab
    · intro a ha hb
      obtain ⟨t, _, rfl⟩ := List.mem_map.1 ha
      obtain ⟨t2, _, heq⟩ := List.mem_map.1 hb
      simp at heq
  · exact find_links_raw_rel_length normU netloc base (pyLower (netloc base)) hrefs

/-- URLs in the queue produced by the re-enqueue loop either were already
queued or passed the same-host admission check. -/
theorem enqueue_links_q_mem (netloc : String → String) (domain : String)
    (seen : List String) (depth : Nat) :
    ∀ (ls qacc : List String) (dm : List (String × Nat)) (u : String),
      u ∈ (enqueue_links netloc domain seen depth ls qacc dm).1 →
      u ∈ qacc ∨ same_host netloc u domain = true := by
  intro ls
  induction ls with
  | nil => intro qacc dm u hu; exact Or.inl hu
  | cons nxt ls ih =>
    intro qacc dm u hu
    simp only [enqueue_links] at hu
    by_cases hc : nxt ∉ seen ∧ same_host netloc nxt domain = true
    · rw [if_pos hc] at hu
      rcases ih _ _ u hu with hq | hs
      · rcases List.mem_append.1 hq with h1 | h2
        · exact Or.inl h1
        · obtain rfl : u = nxt := by simpa using h2
          exact Or.inr hc.2
      · exact Or.inr hs
    · rw [if_neg hc] at hu
      exact ih _ _ u hu

/-- The re-enqueue loop never overwrites an existing depth-map entry: depth
is fixed at first enqueue. -/
theorem enqueue_links_dm_lookup (netloc : String → String) (domain : String)
    (seen : List String) (depth : Nat) :
    ∀ (ls qacc : List String) (dm : List (String × Nat)) (k : String) (v : Nat),
      alookup k dm = some v →
      alookup k (enqueue_links netloc domain seen depth ls qacc dm).2 = some v := by
  intro ls
  induction ls with
  | nil => intro _ _ _ _ h; exact h
  | cons nxt ls ih =>
    intro qacc dm k v h
    simp only [enqueue_links]
    by_cases hc : nxt ∉ seen ∧ same_host netloc nxt domain = true
    · rw [if_pos hc]
      apply ih
      by_cases hk : alookup nxt dm = none
      · rw [if_pos hk]
        have hne : nxt ≠ k := by
          intro e
          subst e
          rw [h] at hk
          exact Option.noConfusion hk
        simpa [alookup, hne] using h
      · rw [if_neg hk]
        exact h
    · rw [if_neg hc]
      exact ih _ _ _ _ h

/-- The initial crawl state satisfies the loop invariant. -/
theorem crawl_inv_init (netloc : String → String) (domain : String)
    (maxDepth : Nat) (seeds : List String) :
    CrawlInv netloc domain maxDepth (init_state netloc domain seeds) := by
  refine ⟨List.nodup_nil, rfl, rfl, ?_, ?_⟩
  · intro u hu
    exact (List.mem_filter.1 hu).2
  · intro p hp
    simp [init_state] at hp

/-- One iteration of the loop body preserves the invariant. -/
theorem crawl_inv_step (netloc : String → String) (o : CrawlOracle)
    (domain : String) (maxDepth : Nat) (s : CrawlState)
    (h : CrawlInv netloc domain maxDepth s) :
    CrawlInv netloc domain maxDepth (crawl_step netloc o domain maxDepth s) := by
  obtain ⟨hnd, hlen, hcnt, hq, hrecs⟩ := h
  unfold crawl_step
  cases hsq : s.q with
  | nil => exact ⟨hnd, hlen, hcnt, by rw [hsq] at hq ⊢; exact hq, hrecs⟩
  | cons url rest =>
    dsimp only
    have hqmem : ∀ u ∈ rest, same_host netloc u domain = true := by
      intro u hu
      exact hq u (hsq ▸ List.mem_cons_of_mem url hu)
    have hurl : same_host netloc url domain = true :=
      hq url (hsq ▸ List.mem_cons_self url rest)
    by_cases hseen : url ∈ s.seen
    · rw [if_pos hseen]
      exact ⟨hnd, hlen, hcnt, hqmem, hrecs⟩
    · rw [if_neg hseen]
      by_cases hdep : maxDepth < (alookup url s.dm).getD 0
      · rw [if_pos hdep]
        exact ⟨hnd, hlen, hcnt, hqmem, hrecs⟩
      · rw [if_neg hdep]
        by_cases hrob : o.robots url = some false
        · rw [if_pos hrob]
          exact ⟨hnd, hlen, hcnt, hqmem, hrecs⟩
        · rw [if_neg hrob]
          refine ⟨List.nodup_cons.2 ⟨hseen, hnd⟩, ?_, ?_, ?_, ?_⟩
          · simp [hlen]
          · simp [hcnt]
          · intro u hu
            rcases enqueue_links_q_mem netloc domain s.seen _ _ rest s.dm u hu with h1 | h2
            · exact hqmem u h1
            · exact h2
          · intro p hp
            rcases List.mem_append.1 hp with h1 | h2
            · exact hrecs p h1
            · obtain rfl : p = (url, (alookup url s.dm).getD 0) := by simpa using h2
              exact ⟨Nat.le_of_not_lt hdep, hurl⟩

/-- The invariant holds after any number of loop iterations. -/
theorem crawl_inv_run (netloc : String → String) (o : CrawlOracle)
    (domain : String) (maxDepth maxPages : Nat) (seeds : List String) (k : Nat) :
    CrawlInv netloc domain maxDepth
      (crawl_run netloc o domain maxDepth maxPages seeds k) := by
  induction k with
  | zero => exact crawl_inv_init netloc domain maxDepth seeds
  | succ n ih =>
    show CrawlInv netloc domain maxDepth
      (crawl_loop_step netloc o domain maxDepth maxPages
        (crawl_run netloc o domain maxDepth maxPages seeds n))
    unfold crawl_loop_step
    split
    · exact crawl_inv_step netloc o domain maxDepth _ ih
    · exact ih

/-- Each iteration of the guarded loop either appends exactly one record and
marks exactly one URL visited, or changes neither. -/
theorem crawl_loop_step_dichotomy (netloc : String → String) (o : CrawlOracle)
    (domain : String) (maxDepth maxPages : Nat) (s : CrawlState) :
    ((crawl_loop_step netloc o domain maxDepth maxPages s).recs = s.recs ∧
      (crawl_loop_step netloc o domain maxDepth maxPages s).seen = s.seen) ∨
    (∃ u d, (crawl_loop_step netloc o domain maxDepth maxPages s).recs =
        s.recs ++ [(u, d)] ∧
      (crawl_loop_step netloc o domain maxDepth maxPages s).seen = u :: s.seen) := by
  unfold crawl_loop_step
  split
  · unfold crawl_step
    cases s.q with
    | nil => exact Or.inl ⟨rfl, rfl⟩
    | cons url rest =>
      dsimp only
      by_cases hseen : url ∈ s.seen
      · rw [if_pos hseen]; exact Or.inl ⟨rfl, rfl⟩
      · rw [if_neg hseen]
        by_cases hdep : maxDepth < (alookup url s.dm).getD 0
        · rw [if_pos hdep]; exact Or.inl ⟨rfl, rfl⟩
        · rw [if_neg hdep]
          by_cases hrob : o.robots url = some false
          · rw [if_pos hrob]; exact Or.inl ⟨rfl, rfl⟩
          · rw [if_neg hrob]
            exact Or.inr ⟨url, (alookup url s.dm).getD 0, rfl, rfl⟩
  · exact Or.inl ⟨rfl, rfl⟩

/-- Depth-map entries persist across one guarded iteration. -/
theorem crawl_loop_step_dm_mono (netloc : String → String) (o : CrawlOracle)
    (domain : String) (maxDepth maxPages : Nat) (s : CrawlState)
    (k : String) (v : Nat) (h : alookup k s.dm = some v) :
    alookup k (crawl_loop_step netloc o domain maxDepth maxPages s).dm = some v := by
  unfold crawl_loop_step
  split
  · unfold crawl_step
    cases s.q with
    | nil => exact h
    | cons url rest =>
      dsimp only
      by_cases hseen : url ∈ s.seen
      · rw [if_pos hseen]; exact h
      · rw [if_neg hseen]
        by_cases hdep : maxDepth < (alookup url s.dm).getD 0
        · rw [if_pos hdep]; exact h
        · rw [if_neg hdep]
          by_cases hrob : o.robots url = some false
          · rw [if_pos hrob]; exact h
          · rw [if_neg hrob]
            exact enqueue_links_dm_lookup netloc domain s.seen _ _ rest s.dm k v h
  · exact h

/-- C6: throughout a crawl session the visited set has no duplicates, its
size always equals the number of page records written and the
`pages_crawled` counter, the visited set only grows from one iteration to
the next, and each iteration either writes exactly one record while marking
exactly one URL visited, or does neither. -/
theorem C6_visited_set_invariant (netloc : String → String) (o : CrawlOracle)
    (domain : String) (maxDepth maxPages : Nat) (seeds : List String) (k : Nat) :
    (crawl_run netloc o domain maxDepth maxPages seeds k).seen.Nodup ∧
    (crawl_run netloc o domain maxDepth maxPages seeds k).seen.length =
      (crawl_run netloc o domain maxDepth maxPages seeds k).recs.length ∧
    (crawl_run netloc o domain maxDepth maxPages seeds k).count =
      (crawl_run netloc o domain maxDepth maxPages seeds k).recs.length ∧
    (∀ u ∈ (crawl_run netloc o domain maxDepth maxPages seeds k).seen,
      u ∈ (crawl_run netloc o domain maxDepth maxPages seeds (k + 1)).seen) ∧
    (((crawl_run netloc o domain maxDepth maxPages seeds (k + 1)).recs =
        (crawl_run netloc o domain maxDepth maxPages seeds k).recs ∧
      (crawl_run netloc o domain maxDepth maxPages seeds (k + 1)).seen =
        (crawl_run netloc o domain maxDepth maxPages seeds k).seen) ∨
     (∃ u d, (crawl_run netloc o domain maxDepth maxPages seeds (k + 1)).recs =
         (crawl_run netloc o domain maxDepth maxPages seeds k).recs ++ [(u, d)] ∧
       (crawl_run netloc o domain maxDepth maxPages seeds (k + 1)).seen =
         u :: (crawl_run netloc o domain maxDepth maxPages seeds k).seen)) := by
  obtain ⟨hnd, hlen, hcnt, _, _⟩ :=
    crawl_inv_run netloc o domain maxDepth maxPages seeds k
  have hdich := crawl_loop_step_dichotomy netloc o domain maxDepth maxPages
    (crawl_run netloc o domain maxDepth maxPages seeds k)
  refine ⟨hnd, hlen, hcnt, ?_, hdich⟩
  intro u hu
  rcases hdich with ⟨_, hseen⟩ | ⟨w, d, _, hseen⟩
  · exact hseen ▸ hu
  · exact hseen ▸ List.mem_cons_of_mem w hu

/-- Witness for C6 on a concrete one-page crawl. -/
theorem C6_visited_set_invariant_witness :
    "x" ∈ (crawl_run netloc0 oracle0 "d" 0 1 ["x"] 2).seen :=
  (C6_visited_set_invariant netloc0 oracle0 "d" 0 1 ["x"] 1).2.2.2.1 "x" (by decide)

/-- C7: every page record a session emits was processed at a first-enqueue
depth of at most `max_depth` and at a URL on the target host, and the
first-enqueue depth of a URL is never revised afterwards. -/
theorem C7_depth_host_bound (netloc : String → String) (o : CrawlOracle)
    (domain : String) (maxDepth maxPages : Nat) (seeds : List String) (k : Nat) :
    (∀ p ∈ (crawl_run netloc o domain maxDepth maxPages seeds k).recs,
      p.2 ≤ maxDepth ∧ same_host netloc p.1 domain = true) ∧
    (∀ (u : String) (d : Nat),
      alookup u (crawl_run netloc o domain maxDepth maxPages seeds k).dm = some d →
      alookup u (crawl_run netloc o domain maxDepth maxPages seeds (k + 1)).dm = some d) := by
  obtain ⟨_, _, _, _, hrecs⟩ :=
    crawl_inv_run netloc o domain maxDepth maxPages seeds k
  refine ⟨hrecs, ?_⟩
  intro u d hd
  exact crawl_loop_step_dm_mono netloc o domain maxDepth maxPages _ u d hd

/-- Witness for C7 on the same concrete one-page crawl. -/
theorem C7_depth_host_bound_witness :
    ((("x", 0) : String × Nat).2 ≤ 0 ∧ same_host netloc0 "x" "d" = true) ∧
    alookup "x" (crawl_run netloc0 oracle0 "d" 0 1 ["x"] 2).dm = some 0 :=
  ⟨(C7_depth_host_bound netloc0 oracle0 "d" 0 1 ["x"] 1).1 ("x", 0) (by decide),
   (C7_depth_host_bound netloc0 oracle0 "d" 0 1 ["x"] 1).2 "x" 0 (by decide)⟩

/-- C8: the API-interaction readiness score is exactly the spec's weighted
sum of the three capped signals — distinct endpoints, JSON-typed entries,
forms — clamped to the range 0 to 100, and the ready flag holds exactly when
the score is at least 40, for every inventory and form count. -/
theorem C8_api_score_formula (discovered : List ApiEntry) (forms_count : Nat) :
    (score_api_testing discovered forms_count).score =
      api_score_spec
        (score_api_testing discovered forms_count).signals.distinct_endpoints
        (score_api_testing discovered forms_count).signals.json_endpoints
        (score_api_testing discovered forms_count).signals.forms_detected ∧
    ((score_api_testing discovered forms_count).ai_interaction_ready = true ↔
      40 ≤ (score_api_testing discovered forms_count).score) ∧
    0 ≤ (score_api_testing discovered forms_count).score ∧
    (score_api_testing discovered forms_count).score ≤ 100 := by
  refine ⟨?_, ?_, ?_, ?_⟩
  · simp only [score_api_testing, api_score_spec]
    omega
  · simp only [score_api_testing, decide_eq_true_eq]
  · simp only [score_api_testing]
    omega
  · simp only [score_api_testing]
    omega

/-- C9: the sitemap-URL set handed to the scorer is never empty — a
`/sitemap.xml` URL is synthesized when robots and intake yield none — so the
`sitemap_present` signal is always true and the raw industry score always
contains the fixed 10-point sitemap bonus, whatever was actually fetched. -/
theorem C9_sitemap_always_present (robots_sitemaps provided : List String)
    (synth : String) (rnd : ℚ → ℤ) (pages : List PageSig) (perf : List PerfRow)
    (robots_found : Bool) :
    crawl_sitemap_found robots_sitemaps provided synth = true ∧
    (score_industry_comparison rnd pages perf
        (crawl_sitemap_found robots_sitemaps provided synth)
        robots_found).sitemap_present = true ∧
    industry_raw rnd pages perf true robots_found =
      industry_raw rnd pages perf false robots_found + 10 := by
  have h1 : sitemap_urls_of robots_sitemaps provided synth ≠ ∅ := by
    unfold sitemap_urls_of
    dsimp only
    split
    · exact Finset.singleton_ne_empty synth
    · next h => exact h
  have h2 : crawl_sitemap_found robots_sitemaps provided synth = true := by
    simpa [crawl_sitemap_found] using h1
  refine ⟨h2, ?_, ?_⟩
  · simp [score_industry_comparison, h2]
  · simp only [industry_raw]
    norm_num
    ring

/-- C10: on an empty page sample and empty performance-row list both
denominators are replaced by 1, and the score degenerates to exactly the
10-point sitemap bonus plus the 5-point robots bonus, so the ready flag
(threshold 60) is false.  The hypothesis `rnd 0 = 0` is the only fact about
Python's float rounding the proof needs. -/
theorem C10_empty_input_score (sm rb : Bool) (rnd : ℚ → ℤ) (h : rnd 0 = 0) :
    pages_denom [] = 1 ∧ perf_denom [] = 1 ∧
    (score_industry_comparison rnd [] [] sm rb).score =
      (if sm then 10 else 0) + (if rb then 5 else 0) ∧
    (score_industry_comparison rnd [] [] sm rb).seo_ai_discovery_ready = false := by
  have hraw : industry_raw rnd [] [] sm rb =
      (if sm then 10 else 0) + (if rb then 5 else 0) := by
    simp [industry_raw, pages_denom, perf_denom, title_ok_count, desc_ok_count,
      og_ok_count, ld_ok_count, mv_ok_count, fast_ok_count, h]
  refine ⟨rfl, rfl, ?_, ?_⟩
  · simp only [score_industry_comparison, hraw]
    cases sm <;> cases rb <;> norm_num
  · simp only [score_industry_comparison, hraw]
    cases sm <;> cases rb <;> norm_num

/-- Witness for C10 with both bonuses present and the constant-zero rounding
function. -/
theorem C10_empty_input_score_witness :
    pages_denom [] = 1 ∧ perf_denom [] = 1 ∧
    (score_industry_comparison (fun _ => 0) [] [] true true).score =
      (if true then 10 else 0) + (if true then 5 else 0) ∧
    (score_industry_comparison (fun _ => 0) [] [] true true).seo_ai_discovery_ready
      = false :=
  C10_empty_input_score true true (fun _ => 0) rfl

end Geo
